import Mathlib

/-!
Shallow embedding of the triangular-arbitrage engine in `src/main.go`.

Prices and balances are `float64` in the source; they are embedded as exact
rationals (`ℚ`), so every arithmetic identity below is exact.  The quote map
`map[string]*PriceInfo` is embedded as a function `String → Option PriceInfo`.
-/

/-- Symbol constant `FIL_ETH` (src/main.go line 14). -/
def FIL_ETH : String := "FIL-ETH"

/-- Symbol constant `ETH_BSV` (src/main.go line 15). -/
def ETH_BSV : String := "ETH-BSV"

/-- Symbol constant `FIL_BSV` (src/main.go line 16). -/
def FIL_BSV : String := "FIL-BSV"

/-- Quote for one pair: symbol, best bid, best ask (src/main.go lines 20-24). -/
structure PriceInfo where
  symbol : String
  bid : ℚ
  ask : ℚ
deriving DecidableEq

/-- Strategy state: the three balances plus the fee rate (`CostRate`) and the
slippage rate (`SlipRate`) (src/main.go lines 27-33). -/
structure TriArbStrategy where
  filAmount : ℚ
  ethAmount : ℚ
  bsvAmount : ℚ
  costRate : ℚ
  slipRate : ℚ
deriving DecidableEq

/-- The quote cache `map[string]*PriceInfo`, embedded as a partial mapping. -/
abbrev PriceMap := String → Option PriceInfo

/-- Forward arbitrage condition (src/main.go line 47):
`filEthPrice.Ask*ethBsvPrice.Ask < filBsvPrice.Bid*(1-s.CostRate)*(1-s.SlipRate)`. -/
abbrev forwardArbCond (s : TriArbStrategy) (filEthPrice ethBsvPrice filBsvPrice : PriceInfo) : Prop :=
  filEthPrice.ask * ethBsvPrice.ask < filBsvPrice.bid * (1 - s.costRate) * (1 - s.slipRate)

/-- Reverse arbitrage condition (src/main.go line 50):
`filEthPrice.Bid*ethBsvPrice.Bid > filBsvPrice.Ask*(1+s.CostRate)*(1+s.SlipRate)`. -/
abbrev reverseArbCond (s : TriArbStrategy) (filEthPrice ethBsvPrice filBsvPrice : PriceInfo) : Prop :=
  filEthPrice.bid * ethBsvPrice.bid > filBsvPrice.ask * (1 + s.costRate) * (1 + s.slipRate)

/-- Forward three-leg cycle, src/main.go lines 55-81: FIL→ETH, ETH→BSV, BSV→FIL.
Each statement of the source block is reproduced in order. -/
def forwardCycle (s : TriArbStrategy) (filEthPrice ethBsvPrice filBsvPrice : PriceInfo) :
    TriArbStrategy :=
  let filToSell : ℚ := 100
  let filCost := filToSell / (1 - s.costRate)
  let ethToBuy := filToSell * filEthPrice.ask
  let ethGet := ethToBuy * (1 - s.slipRate)
  let s1 := { s with filAmount := s.filAmount - filCost, ethAmount := s.ethAmount + ethGet }
  let ethToSell := ethGet
  let ethCost := ethToSell / (1 - s1.costRate)
  let bsvToBuy := ethToSell * ethBsvPrice.ask
  let bsvGet := bsvToBuy * (1 - s1.slipRate)
  let s2 := { s1 with ethAmount := s1.ethAmount - ethCost, bsvAmount := s1.bsvAmount + bsvGet }
  let bsvToSell := bsvGet
  let bsvCost := bsvToSell / (1 - s2.costRate)
  let filToBuy := bsvToSell * filBsvPrice.bid
  let filGet := filToBuy * (1 - s2.slipRate)
  { s2 with bsvAmount := s2.bsvAmount - bsvCost, filAmount := s2.filAmount + filGet }

/-- Reverse branch as written in the source, src/main.go lines 87-104.  It has
only two legs, FIL→BSV and ETH→FIL.  Line 96 of the source reads
`ethToSell := ethGet`, but `ethGet` is declared only inside the forward branch
and is out of scope there (the Go compiler rejects the file); the embedding
makes that reference an explicit parameter `ethGet`. -/
def reverseBranch (ethGet : ℚ) (s : TriArbStrategy) (filEthPrice filBsvPrice : PriceInfo) :
    TriArbStrategy :=
  let filToSell : ℚ := 100
  let filCost := filToSell / (1 - s.costRate)
  let bsvToBuy := filToSell * filBsvPrice.ask
  let bsvGet := bsvToBuy * (1 - s.slipRate)
  let s1 := { s with filAmount := s.filAmount - filCost, bsvAmount := s.bsvAmount + bsvGet }
  let ethToSell := ethGet
  let ethCost := ethToSell / (1 - s1.costRate)
  let filToBuy := ethToSell * filEthPrice.bid
  let filGet := filToBuy * (1 - s1.slipRate)
  { s1 with ethAmount := s1.ethAmount - ethCost, filAmount := s1.filAmount + filGet }

/-- Body of `Execute` once all three quotes are present (src/main.go lines
46-105): evaluate both conditions on the incoming state, then run the forward
branch and the reverse branch in that order, each under its own condition.
The source's out-of-scope `ethGet` in the reverse branch is given the only
semantics compatible with the statement sequence: hoisted to function scope
with Go's zero value `0`, so it carries the forward first leg's proceeds
exactly when the forward branch ran. -/
def executeQuotes (s : TriArbStrategy) (filEthPrice ethBsvPrice filBsvPrice : PriceInfo) :
    TriArbStrategy :=
  let ethGet : ℚ := if forwardArbCond s filEthPrice ethBsvPrice filBsvPrice
    then 100 * filEthPrice.ask * (1 - s.slipRate) else 0
  let s1 := if forwardArbCond s filEthPrice ethBsvPrice filBsvPrice
    then forwardCycle s filEthPrice ethBsvPrice filBsvPrice else s
  if reverseArbCond s filEthPrice ethBsvPrice filBsvPrice
    then reverseBranch ethGet s1 filEthPrice filBsvPrice else s1

/-- Evaluation step `TriArbStrategy.Execute` (src/main.go lines 36-106): look up
the three quotes, return unchanged if any is missing, otherwise run
`executeQuotes`. -/
def Execute (s : TriArbStrategy) (prices : PriceMap) : TriArbStrategy :=
  match prices FIL_ETH, prices ETH_BSV, prices FIL_BSV with
  | some filEthPrice, some ethBsvPrice, some filBsvPrice =>
    executeQuotes s filEthPrice ethBsvPrice filBsvPrice
  | _, _, _ => s

/-- Cache update performed by the consumer loop (src/main.go lines 174-176):
`priceMap[symbol] = info` for the incoming quote's symbol. -/
def updatePriceMap (m : PriceMap) (q : PriceInfo) : PriceMap :=
  fun t => if t = q.symbol then some q else m t

/-! Field-level lemmas about the two branch bodies. -/

lemma forwardCycle_filAmount (s : TriArbStrategy) (q1 q2 q3 : PriceInfo) :
    (forwardCycle s q1 q2 q3).filAmount =
      s.filAmount - 100 / (1 - s.costRate) +
        100 * q1.ask * (1 - s.slipRate) * q2.ask * (1 - s.slipRate) * q3.bid * (1 - s.slipRate) := by
  simp [forwardCycle]

lemma forwardCycle_ethAmount (s : TriArbStrategy) (q1 q2 q3 : PriceInfo) :
    (forwardCycle s q1 q2 q3).ethAmount =
      s.ethAmount + 100 * q1.ask * (1 - s.slipRate) -
        100 * q1.ask * (1 - s.slipRate) / (1 - s.costRate) := by
  simp [forwardCycle]

lemma forwardCycle_bsvAmount (s : TriArbStrategy) (q1 q2 q3 : PriceInfo) :
    (forwardCycle s q1 q2 q3).bsvAmount =
      s.bsvAmount + 100 * q1.ask * (1 - s.slipRate) * q2.ask * (1 - s.slipRate) -
        100 * q1.ask * (1 - s.slipRate) * q2.ask * (1 - s.slipRate) / (1 - s.costRate) := by
  simp [forwardCycle]

lemma forwardCycle_costRate (s : TriArbStrategy) (q1 q2 q3 : PriceInfo) :
    (forwardCycle s q1 q2 q3).costRate = s.costRate := rfl

lemma forwardCycle_slipRate (s : TriArbStrategy) (q1 q2 q3 : PriceInfo) :
    (forwardCycle s q1 q2 q3).slipRate = s.slipRate := rfl

lemma reverseBranch_filAmount (g : ℚ) (s : TriArbStrategy) (q1 q3 : PriceInfo) :
    (reverseBranch g s q1 q3).filAmount =
      s.filAmount - 100 / (1 - s.costRate) + g * q1.bid * (1 - s.slipRate) := by
  simp [reverseBranch]

lemma reverseBranch_ethAmount (g : ℚ) (s : TriArbStrategy) (q1 q3 : PriceInfo) :
    (reverseBranch g s q1 q3).ethAmount = s.ethAmount - g / (1 - s.costRate) := by
  simp [reverseBranch]

lemma reverseBranch_bsvAmount (g : ℚ) (s : TriArbStrategy) (q1 q3 : PriceInfo) :
    (reverseBranch g s q1 q3).bsvAmount = s.bsvAmount + 100 * q3.ask * (1 - s.slipRate) := by
  simp [reverseBranch]

lemma reverseBranch_costRate (g : ℚ) (s : TriArbStrategy) (q1 q3 : PriceInfo) :
    (reverseBranch g s q1 q3).costRate = s.costRate := rfl

lemma reverseBranch_slipRate (g : ℚ) (s : TriArbStrategy) (q1 q3 : PriceInfo) :
    (reverseBranch g s q1 q3).slipRate = s.slipRate := rfl

/-! Case analysis of `executeQuotes` and the quote lookup of `Execute`. -/

lemma executeQuotes_fwd_only (s : TriArbStrategy) (q1 q2 q3 : PriceInfo)
    (hf : forwardArbCond s q1 q2 q3) (hr : ¬ reverseArbCond s q1 q2 q3) :
    executeQuotes s q1 q2 q3 = forwardCycle s q1 q2 q3 := by
  simp only [executeQuotes, if_pos hf, if_neg hr]

lemma executeQuotes_rev_only (s : TriArbStrategy) (q1 q2 q3 : PriceInfo)
    (hf : ¬ forwardArbCond s q1 q2 q3) (hr : reverseArbCond s q1 q2 q3) :
    executeQuotes s q1 q2 q3 = reverseBranch 0 s q1 q3 := by
  simp only [executeQuotes, if_neg hf, if_pos hr]

lemma executeQuotes_both (s : TriArbStrategy) (q1 q2 q3 : PriceInfo)
    (hf : forwardArbCond s q1 q2 q3) (hr : reverseArbCond s q1 q2 q3) :
    executeQuotes s q1 q2 q3 =
      reverseBranch (100 * q1.ask * (1 - s.slipRate)) (forwardCycle s q1 q2 q3) q1 q3 := by
  simp only [executeQuotes, if_pos hf, if_pos hr]

lemma executeQuotes_neither (s : TriArbStrategy) (q1 q2 q3 : PriceInfo)
    (hf : ¬ forwardArbCond s q1 q2 q3) (hr : ¬ reverseArbCond s q1 q2 q3) :
    executeQuotes s q1 q2 q3 = s := by
  simp only [executeQuotes, if_neg hf, if_neg hr]

lemma executeQuotes_costRate (s : TriArbStrategy) (q1 q2 q3 : PriceInfo) :
    (executeQuotes s q1 q2 q3).costRate = s.costRate := by
  unfold executeQuotes
  split <;> split <;> rfl

lemma executeQuotes_slipRate (s : TriArbStrategy) (q1 q2 q3 : PriceInfo) :
    (executeQuotes s q1 q2 q3).slipRate = s.slipRate := by
  unfold executeQuotes
  split <;> split <;> rfl

lemma Execute_lookup (s : TriArbStrategy) (prices : PriceMap) (q1 q2 q3 : PriceInfo)
    (h1 : prices FIL_ETH = some q1) (h2 : prices ETH_BSV = some q2)
    (h3 : prices FIL_BSV = some q3) :
    Execute s prices = executeQuotes s q1 q2 q3 := by
  unfold Execute
  rw [h1, h2, h3]

/-- C1: when all three quotes are present and the forward condition
`ask(A/B)*ask(B/C) < bid(A/C)*(1-feeRate)*(1-slippageRate)` holds (and the
reverse condition does not), `Execute` performs the three-leg forward cycle
FIL→ETH, ETH→BSV, BSV→FIL with a fixed notional of 100 FIL: each leg debits
`spent = amount/(1-feeRate)` from the source asset and credits
`received = amount*price*(1-slippageRate)` to the destination asset.  In
particular the FIL balance is debited exactly `100/(1-feeRate)` by the first
leg and credited the third leg's proceeds. -/
theorem execute_forward_cycle_legs (s : TriArbStrategy) (prices : PriceMap)
    (q1 q2 q3 : PriceInfo)
    (h1 : prices FIL_ETH = some q1) (h2 : prices ETH_BSV = some q2)
    (h3 : prices FIL_BSV = some q3)
    (hf : forwardArbCond s q1 q2 q3) (hr : ¬ reverseArbCond s q1 q2 q3) :
    (Execute s prices).filAmount =
        s.filAmount - 100 / (1 - s.costRate) +
          100 * q1.ask * (1 - s.slipRate) * q2.ask * (1 - s.slipRate) * q3.bid *
            (1 - s.slipRate) ∧
      (Execute s prices).ethAmount =
        s.ethAmount + 100 * q1.ask * (1 - s.slipRate) -
          100 * q1.ask * (1 - s.slipRate) / (1 - s.costRate) ∧
      (Execute s prices).bsvAmount =
        s.bsvAmount + 100 * q1.ask * (1 - s.slipRate) * q2.ask * (1 - s.slipRate) -
          100 * q1.ask * (1 - s.slipRate) * q2.ask * (1 - s.slipRate) / (1 - s.costRate) := by
  rw [Execute_lookup s prices q1 q2 q3 h1 h2 h3, executeQuotes_fwd_only s q1 q2 q3 hf hr]
  exact ⟨forwardCycle_filAmount s q1 q2 q3, forwardCycle_ethAmount s q1 q2 q3,
    forwardCycle_bsvAmount s q1 q2 q3⟩

/-- Witness for C1 at the concrete quotes of the claim: `filEthAsk=0.1`,
`ethBsvAsk=0.5`, `filBsvBid=0.06`, `feeRate=0.001`, `slippageRate=0.0001`; the
forward condition holds and the FIL balance is debited exactly `100/(1-0.001)`
(and credited the third leg's proceeds). -/
theorem execute_forward_cycle_legs_inst :
    forwardArbCond ⟨700, 0, 0, 1/1000, 1/10000⟩ ⟨"FIL-ETH", 0, 1/10⟩ ⟨"ETH-BSV", 0, 1/2⟩
        ⟨"FIL-BSV", 6/100, 1⟩ ∧
      ¬ reverseArbCond ⟨700, 0, 0, 1/1000, 1/10000⟩ ⟨"FIL-ETH", 0, 1/10⟩ ⟨"ETH-BSV", 0, 1/2⟩
        ⟨"FIL-BSV", 6/100, 1⟩ ∧
      (Execute ⟨700, 0, 0, 1/1000, 1/10000⟩
          (fun t => if t = "FIL-ETH" then some ⟨"FIL-ETH", 0, 1/10⟩
            else if t = "ETH-BSV" then some ⟨"ETH-BSV", 0, 1/2⟩
            else if t = "FIL-BSV" then some ⟨"FIL-BSV", 6/100, 1⟩
            else none)).filAmount =
        700 - 100 / (1 - 1/1000) +
          100 * (1/10) * (1 - 1/10000) * (1/2) * (1 - 1/10000) * (6/100) * (1 - 1/10000) :=
  ⟨by norm_num, by norm_num,
    (execute_forward_cycle_legs ⟨700, 0, 0, 1/1000, 1/10000⟩ _ ⟨"FIL-ETH", 0, 1/10⟩
        ⟨"ETH-BSV", 0, 1/2⟩ ⟨"FIL-BSV", 6/100, 1⟩ rfl rfl rfl (by norm_num) (by norm_num)).1⟩

/-- C3: if any of the three symbols is missing from the snapshot, `Execute`
performs zero ledger mutations: the state (all three balances and both rate
parameters) is returned exactly unchanged. -/
theorem execute_missing_quote_noop (s : TriArbStrategy) (prices : PriceMap)
    (h : prices FIL_ETH = none ∨ prices ETH_BSV = none ∨ prices FIL_BSV = none) :
    Execute s prices = s := by
  unfold Execute
  cases h1 : prices FIL_ETH <;> cases h2 : prices ETH_BSV <;> cases h3 : prices FIL_BSV <;>
    simp_all

/-- Witness for C3: the empty snapshot is missing `FIL-ETH`, and `Execute`
returns the state unchanged on it. -/
theorem execute_missing_quote_noop_inst :
    (fun _ => (none : Option PriceInfo)) FIL_ETH = none ∧
      Execute ⟨700, 0, 0, 1/1000, 1/10000⟩ (fun _ => none) = ⟨700, 0, 0, 1/1000, 1/10000⟩ :=
  ⟨rfl, execute_missing_quote_noop ⟨700, 0, 0, 1/1000, 1/10000⟩ (fun _ => none) (Or.inl rfl)⟩

/-- C9: `Execute` never mutates the fee rate (`CostRate`) or the slippage rate
(`SlipRate`): for every state and snapshot both parameters are returned exactly
unchanged, so only the three balances are ever mutated. -/
theorem execute_preserves_rates (s : TriArbStrategy) (prices : PriceMap) :
    (Execute s prices).costRate = s.costRate ∧ (Execute s prices).slipRate = s.slipRate := by
  unfold Execute
  cases h1 : prices FIL_ETH <;> cases h2 : prices ETH_BSV <;> cases h3 : prices FIL_BSV <;>
    simp [executeQuotes_costRate, executeQuotes_slipRate]

/-- C4: the forward trigger is a strict inequality.  When
`ask(A/B)*ask(B/C)` is exactly equal to `bid(A/C)*(1-feeRate)*(1-slippageRate)`
the forward condition does not hold, and (when the reverse condition does not
hold either) `Execute` performs no ledger mutation at all. -/
theorem forward_boundary_not_triggered (s : TriArbStrategy) (prices : PriceMap)
    (q1 q2 q3 : PriceInfo)
    (h1 : prices FIL_ETH = some q1) (h2 : prices ETH_BSV = some q2)
    (h3 : prices FIL_BSV = some q3)
    (heq : q1.ask * q2.ask = q3.bid * (1 - s.costRate) * (1 - s.slipRate))
    (hr : ¬ reverseArbCond s q1 q2 q3) :
    ¬ forwardArbCond s q1 q2 q3 ∧ Execute s prices = s := by
  have hf : ¬ forwardArbCond s q1 q2 q3 := by
    intro hlt
    simp only [forwardArbCond, heq] at hlt
    exact lt_irrefl _ hlt
  exact ⟨hf, by
    rw [Execute_lookup s prices q1 q2 q3 h1 h2 h3, executeQuotes_neither s q1 q2 q3 hf hr]⟩

/-- Witness for C4 at a concrete boundary snapshot:
`ask(A/B)*ask(B/C) = 9989001/10^7 = 1*(1-1/1000)*(1-1/10000)`, where the
forward branch is not taken and the state is unchanged. -/
theorem forward_boundary_not_triggered_inst :
    ¬ forwardArbCond ⟨700, 0, 0, 1/1000, 1/10000⟩ ⟨"FIL-ETH", 0, 9989001/10000000⟩
        ⟨"ETH-BSV", 0, 1⟩ ⟨"FIL-BSV", 1, 1⟩ ∧
      Execute ⟨700, 0, 0, 1/1000, 1/10000⟩
          (fun t => if t = "FIL-ETH" then some ⟨"FIL-ETH", 0, 9989001/10000000⟩
            else if t = "ETH-BSV" then some ⟨"ETH-BSV", 0, 1⟩
            else if t = "FIL-BSV" then some ⟨"FIL-BSV", 1, 1⟩
            else none) =
        ⟨700, 0, 0, 1/1000, 1/10000⟩ :=
  forward_boundary_not_triggered ⟨700, 0, 0, 1/1000, 1/10000⟩
    (fun t => if t = "FIL-ETH" then some ⟨"FIL-ETH", 0, 9989001/10000000⟩
      else if t = "ETH-BSV" then some ⟨"ETH-BSV", 0, 1⟩
      else if t = "FIL-BSV" then some ⟨"FIL-BSV", 1, 1⟩
      else none)
    ⟨"FIL-ETH", 0, 9989001/10000000⟩ ⟨"ETH-BSV", 0, 1⟩ ⟨"FIL-BSV", 1, 1⟩
    rfl rfl rfl (by norm_num) (by norm_num)

/-- C5: debits are applied unconditionally, with no clamping and no
non-negativity check.  On a concrete snapshot whose forward condition fires and
a ledger holding only 1 FIL, the first leg debits `100/(1-0.001) > 1` FIL and
the resulting FIL balance is strictly negative. -/
theorem execute_overdraw_negative_balance :
    100 / (1 - (1/1000 : ℚ)) > 1 ∧
      (Execute ⟨1, 0, 0, 1/1000, 1/10000⟩
          (fun t => if t = "FIL-ETH" then some ⟨"FIL-ETH", 0, 1/10⟩
            else if t = "ETH-BSV" then some ⟨"ETH-BSV", 0, 1/2⟩
            else if t = "FIL-BSV" then some ⟨"FIL-BSV", 6/100, 1⟩
            else none)).filAmount < 0 := by
  constructor
  · norm_num
  · rw [Execute_lookup ⟨1, 0, 0, 1/1000, 1/10000⟩ _ ⟨"FIL-ETH", 0, 1/10⟩ ⟨"ETH-BSV", 0, 1/2⟩
        ⟨"FIL-BSV", 6/100, 1⟩ rfl rfl rfl,
      executeQuotes_fwd_only _ _ _ _ (by norm_num) (by norm_num),
      forwardCycle_filAmount]
    norm_num

/-- C6: the two conditions are evaluated independently in the same call.  If
both hold on a snapshot, `Execute` runs the forward branch and then the reverse
branch on its result: neither suppresses the other. -/
theorem execute_both_conditions_fire (s : TriArbStrategy) (prices : PriceMap)
    (q1 q2 q3 : PriceInfo)
    (h1 : prices FIL_ETH = some q1) (h2 : prices ETH_BSV = some q2)
    (h3 : prices FIL_BSV = some q3)
    (hf : forwardArbCond s q1 q2 q3) (hr : reverseArbCond s q1 q2 q3) :
    Execute s prices =
      reverseBranch (100 * q1.ask * (1 - s.slipRate)) (forwardCycle s q1 q2 q3) q1 q3 := by
  rw [Execute_lookup s prices q1 q2 q3 h1 h2 h3, executeQuotes_both s q1 q2 q3 hf hr]

/-- Witness for C6 at a concrete snapshot where both conditions hold
(`ask(A/B)*ask(B/C)=0.05 < 0.06*(1-fee)*(1-slip)` and
`bid(A/B)*bid(B/C)=100 > 0.04*(1+fee)*(1+slip)`): both branches fire. -/
theorem execute_both_conditions_fire_inst :
    forwardArbCond ⟨700, 0, 0, 1/1000, 1/10000⟩ ⟨"FIL-ETH", 10, 1/10⟩ ⟨"ETH-BSV", 10, 1/2⟩
        ⟨"FIL-BSV", 6/100, 4/100⟩ ∧
      reverseArbCond ⟨700, 0, 0, 1/1000, 1/10000⟩ ⟨"FIL-ETH", 10, 1/10⟩ ⟨"ETH-BSV", 10, 1/2⟩
        ⟨"FIL-BSV", 6/100, 4/100⟩ ∧
      Execute ⟨700, 0, 0, 1/1000, 1/10000⟩
          (fun t => if t = "FIL-ETH" then some ⟨"FIL-ETH", 10, 1/10⟩
            else if t = "ETH-BSV" then some ⟨"ETH-BSV", 10, 1/2⟩
            else if t = "FIL-BSV" then some ⟨"FIL-BSV", 6/100, 4/100⟩
            else none) =
        reverseBranch (100 * (1/10) * (1 - 1/10000))
          (forwardCycle ⟨700, 0, 0, 1/1000, 1/10000⟩ ⟨"FIL-ETH", 10, 1/10⟩ ⟨"ETH-BSV", 10, 1/2⟩
            ⟨"FIL-BSV", 6/100, 4/100⟩)
          ⟨"FIL-ETH", 10, 1/10⟩ ⟨"FIL-BSV", 6/100, 4/100⟩ :=
  ⟨by norm_num, by norm_num,
    execute_both_conditions_fire ⟨700, 0, 0, 1/1000, 1/10000⟩
      (fun t => if t = "FIL-ETH" then some ⟨"FIL-ETH", 10, 1/10⟩
        else if t = "ETH-BSV" then some ⟨"ETH-BSV", 10, 1/2⟩
        else if t = "FIL-BSV" then some ⟨"FIL-BSV", 6/100, 4/100⟩
        else none)
      ⟨"FIL-ETH", 10, 1/10⟩ ⟨"ETH-BSV", 10, 1/2⟩ ⟨"FIL-BSV", 6/100, 4/100⟩
      rfl rfl rfl (by norm_num) (by norm_num)⟩

/-! Repetition of `executeQuotes`: the per-call ledger delta is determined by
the quotes and the two rates alone, and both are preserved across a call. -/

lemma executeQuotes_delta_repeat (s : TriArbStrategy) (q1 q2 q3 : PriceInfo) :
    (executeQuotes (executeQuotes s q1 q2 q3) q1 q2 q3).filAmount -
        (executeQuotes s q1 q2 q3).filAmount =
      (executeQuotes s q1 q2 q3).filAmount - s.filAmount ∧
    (executeQuotes (executeQuotes s q1 q2 q3) q1 q2 q3).ethAmount -
        (executeQuotes s q1 q2 q3).ethAmount =
      (executeQuotes s q1 q2 q3).ethAmount - s.ethAmount ∧
    (executeQuotes (executeQuotes s q1 q2 q3) q1 q2 q3).bsvAmount -
        (executeQuotes s q1 q2 q3).bsvAmount =
      (executeQuotes s q1 q2 q3).bsvAmount - s.bsvAmount := by
  by_cases hf : forwardArbCond s q1 q2 q3 <;> by_cases hr : reverseArbCond s q1 q2 q3
  · rw [executeQuotes_both s q1 q2 q3 hf hr,
      executeQuotes_both
        (reverseBranch (100 * q1.ask * (1 - s.slipRate)) (forwardCycle s q1 q2 q3) q1 q3)
        q1 q2 q3 hf hr]
    refine ⟨?_, ?_, ?_⟩ <;>
      simp only [forwardCycle_filAmount, forwardCycle_ethAmount, forwardCycle_bsvAmount,
        forwardCycle_costRate, forwardCycle_slipRate, reverseBranch_filAmount,
        reverseBranch_ethAmount, reverseBranch_bsvAmount, reverseBranch_costRate,
        reverseBranch_slipRate] <;> ring
  · rw [executeQuotes_fwd_only s q1 q2 q3 hf hr,
      executeQuotes_fwd_only (forwardCycle s q1 q2 q3) q1 q2 q3 hf hr]
    refine ⟨?_, ?_, ?_⟩ <;>
      simp only [forwardCycle_filAmount, forwardCycle_ethAmount, forwardCycle_bsvAmount,
        forwardCycle_costRate, forwardCycle_slipRate] <;> ring
  · rw [executeQuotes_rev_only s q1 q2 q3 hf hr,
      executeQuotes_rev_only (reverseBranch 0 s q1 q3) q1 q2 q3 hf hr]
    refine ⟨?_, ?_, ?_⟩ <;>
      simp only [reverseBranch_filAmount, reverseBranch_ethAmount, reverseBranch_bsvAmount,
        reverseBranch_costRate, reverseBranch_slipRate] <;> ring
  · simp [executeQuotes_neither s q1 q2 q3 hf hr]

/-- C7: `Execute` is stateless per call with respect to triggering: with the
snapshot unchanged, the ledger delta of a second call equals the delta of the
first call on every balance — the conditions and the leg amounts depend only
on the quotes and the (preserved) rate parameters, so there is no debouncing
or once-only latch. -/
theorem execute_stateless_repeat (s : TriArbStrategy) (prices : PriceMap) :
    (Execute (Execute s prices) prices).filAmount - (Execute s prices).filAmount =
        (Execute s prices).filAmount - s.filAmount ∧
      (Execute (Execute s prices) prices).ethAmount - (Execute s prices).ethAmount =
        (Execute s prices).ethAmount - s.ethAmount ∧
      (Execute (Execute s prices) prices).bsvAmount - (Execute s prices).bsvAmount =
        (Execute s prices).bsvAmount - s.bsvAmount := by
  unfold Execute
  cases h1 : prices FIL_ETH <;> cases h2 : prices ETH_BSV <;> cases h3 : prices FIL_BSV
  any_goals exact executeQuotes_delta_repeat s _ _ _
  all_goals exact ⟨rfl, rfl, rfl⟩

/-- C8: the quote-cache update is unconditional last-write-wins.  Storing a
quote `q` replaces the entry for `q.symbol` with `q` regardless of the previous
entry, leaves every other symbol's entry unchanged, and never removes an entry:
a symbol that was present stays present. -/
theorem updatePriceMap_last_write_wins (m : PriceMap) (q : PriceInfo) (t u : String)
    (ht : t ≠ q.symbol) (hu : (m u).isSome = true) :
    updatePriceMap m q q.symbol = some q ∧ updatePriceMap m q t = m t ∧
      (updatePriceMap m q u).isSome = true := by
  refine ⟨?_, ?_, ?_⟩ <;> unfold updatePriceMap
  · simp
  · simp [ht]
  · by_cases h : u = q.symbol <;> simp [h, hu]

/-- Witness for C8: updating a cache that holds an `ETH-BSV` quote with a new
`FIL-ETH` quote stores the new quote under `FIL-ETH`, leaves the `ETH-BSV`
entry unchanged, and keeps it present. -/
theorem updatePriceMap_last_write_wins_inst :
    updatePriceMap (fun t => if t = "ETH-BSV" then some ⟨"ETH-BSV", 1, 2⟩ else none)
        ⟨"FIL-ETH", 3, 4⟩ "FIL-ETH" = some ⟨"FIL-ETH", 3, 4⟩ ∧
      updatePriceMap (fun t => if t = "ETH-BSV" then some ⟨"ETH-BSV", 1, 2⟩ else none)
        ⟨"FIL-ETH", 3, 4⟩ "ETH-BSV" =
        (fun t => if t = "ETH-BSV" then some ⟨"ETH-BSV", 1, 2⟩ else none) "ETH-BSV" ∧
      ((updatePriceMap (fun t => if t = "ETH-BSV" then some ⟨"ETH-BSV", 1, 2⟩ else none)
        ⟨"FIL-ETH", 3, 4⟩) "ETH-BSV").isSome = true :=
  updatePriceMap_last_write_wins
    (fun t => if t = "ETH-BSV" then some ⟨"ETH-BSV", 1, 2⟩ else none)
    ⟨"FIL-ETH", 3, 4⟩ "ETH-BSV" "ETH-BSV" (by decide) rfl

/-- C10: whenever the forward condition fires on quotes with a strictly
positive `FIL-ETH` ask, with fee rate in `(0,1)` and slippage rate in `[0,1)`,
the net effect of the evaluation on the intermediate ETH balance is strictly
negative: the cycle credits `ethGet = 100*ask(FIL-ETH)*(1-SlipRate)` and then
debits `ethGet/(1-CostRate) > ethGet`. -/
theorem execute_forward_eth_net_negative (s : TriArbStrategy) (prices : PriceMap)
    (q1 q2 q3 : PriceInfo)
    (h1 : prices FIL_ETH = some q1) (h2 : prices ETH_BSV = some q2)
    (h3 : prices FIL_BSV = some q3)
    (hf : forwardArbCond s q1 q2 q3)
    (hask : 0 < q1.ask)
    (hc0 : 0 < s.costRate) (hc1 : s.costRate < 1)
    (_hs0 : 0 ≤ s.slipRate) (hs1 : s.slipRate < 1) :
    (Execute s prices).ethAmount < s.ethAmount := by
  have h1c : (0 : ℚ) < 1 - s.costRate := by linarith
  have hg : (0 : ℚ) < 100 * q1.ask * (1 - s.slipRate) := by
    have : (0 : ℚ) < 1 - s.slipRate := by linarith
    positivity
  have hkey : 100 * q1.ask * (1 - s.slipRate) <
      100 * q1.ask * (1 - s.slipRate) / (1 - s.costRate) := by
    rw [lt_div_iff₀ h1c]
    nlinarith [mul_pos hg hc0]
  rw [Execute_lookup s prices q1 q2 q3 h1 h2 h3]
  by_cases hr : reverseArbCond s q1 q2 q3
  · rw [executeQuotes_both s q1 q2 q3 hf hr, reverseBranch_ethAmount, forwardCycle_ethAmount,
      forwardCycle_costRate]
    have hdiv : (0 : ℚ) < 100 * q1.ask * (1 - s.slipRate) / (1 - s.costRate) :=
      div_pos hg h1c
    linarith
  · rw [executeQuotes_fwd_only s q1 q2 q3 hf hr, forwardCycle_ethAmount]
    linarith

/-- Witness for C10 at a concrete snapshot with strictly positive prices where
the forward condition fires with the default rates: the ETH balance strictly
decreases. -/
theorem execute_forward_eth_net_negative_inst :
    forwardArbCond ⟨700, 0, 0, 1/1000, 1/10000⟩ ⟨"FIL-ETH", 1/100, 1/10⟩
        ⟨"ETH-BSV", 1/100, 1/2⟩ ⟨"FIL-BSV", 6/100, 1⟩ ∧
      (Execute ⟨700, 0, 0, 1/1000, 1/10000⟩
          (fun t => if t = "FIL-ETH" then some ⟨"FIL-ETH", 1/100, 1/10⟩
            else if t = "ETH-BSV" then some ⟨"ETH-BSV", 1/100, 1/2⟩
            else if t = "FIL-BSV" then some ⟨"FIL-BSV", 6/100, 1⟩
            else none)).ethAmount < 0 :=
  ⟨by norm_num,
    execute_forward_eth_net_negative ⟨700, 0, 0, 1/1000, 1/10000⟩
      (fun t => if t = "FIL-ETH" then some ⟨"FIL-ETH", 1/100, 1/10⟩
        else if t = "ETH-BSV" then some ⟨"ETH-BSV", 1/100, 1/2⟩
        else if t = "FIL-BSV" then some ⟨"FIL-BSV", 6/100, 1⟩
        else none)
      ⟨"FIL-ETH", 1/100, 1/10⟩ ⟨"ETH-BSV", 1/100, 1/2⟩ ⟨"FIL-BSV", 6/100, 1⟩
      rfl rfl rfl (by norm_num) (by norm_num) (by norm_num) (by norm_num)
      (by norm_num) (by norm_num)⟩

/-- C2 (code defect): at the claim's own input `filEthBid=0.1, ethBsvBid=0.5,
filBsvAsk=0.04, feeRate=0.001, slippageRate=0.0001` the reverse condition
holds, yet the code does not perform the mirrored three-leg cycle A→C, C→B,
B→A: the ETH balance is left exactly unchanged (the B→A leg's amount is the
out-of-scope `ethGet`, which is zero when the forward branch did not run, and
no C→B leg exists at all), BSV is only credited its first-leg proceeds and
never debited, and FIL is debited `100/(1-feeRate)` with nothing credited
back.  The source block has only two legs. -/
theorem execute_reverse_branch_two_legs :
    reverseArbCond ⟨700, 0, 0, 1/1000, 1/10000⟩ ⟨"FIL-ETH", 1/10, 1⟩ ⟨"ETH-BSV", 1/2, 1⟩
        ⟨"FIL-BSV", 1/100, 4/100⟩ ∧
      (Execute ⟨700, 0, 0, 1/1000, 1/10000⟩
          (fun t => if t = "FIL-ETH" then some ⟨"FIL-ETH", 1/10, 1⟩
            else if t = "ETH-BSV" then some ⟨"ETH-BSV", 1/2, 1⟩
            else if t = "FIL-BSV" then some ⟨"FIL-BSV", 1/100, 4/100⟩
            else none)).ethAmount = 0 ∧
      (Execute ⟨700, 0, 0, 1/1000, 1/10000⟩
          (fun t => if t = "FIL-ETH" then some ⟨"FIL-ETH", 1/10, 1⟩
            else if t = "ETH-BSV" then some ⟨"ETH-BSV", 1/2, 1⟩
            else if t = "FIL-BSV" then some ⟨"FIL-BSV", 1/100, 4/100⟩
            else none)).bsvAmount = 100 * (4/100) * (1 - 1/10000) ∧
      (Execute ⟨700, 0, 0, 1/1000, 1/10000⟩
          (fun t => if t = "FIL-ETH" then some ⟨"FIL-ETH", 1/10, 1⟩
            else if t = "ETH-BSV" then some ⟨"ETH-BSV", 1/2, 1⟩
            else if t = "FIL-BSV" then some ⟨"FIL-BSV", 1/100, 4/100⟩
            else none)).filAmount = 700 - 100 / (1 - 1/1000) := by
  refine ⟨by norm_num, ?_, ?_, ?_⟩ <;>
    rw [Execute_lookup ⟨700, 0, 0, 1/1000, 1/10000⟩ _ ⟨"FIL-ETH", 1/10, 1⟩ ⟨"ETH-BSV", 1/2, 1⟩
          ⟨"FIL-BSV", 1/100, 4/100⟩ rfl rfl rfl,
        executeQuotes_rev_only _ _ _ _ (by norm_num) (by norm_num)]
  · rw [reverseBranch_ethAmount]
    norm_num
  · rw [reverseBranch_bsvAmount]
    norm_num
  · rw [reverseBranch_filAmount]
    norm_num
